import Mathlib

/-!
Shallow embedding of the TikTok Ads creation agent (Python sources under
src/src/) for checking the natural-language specification.

The embedding follows the source files:
  config.py        -> namespace BusinessRules
  validators.py    -> namespace CampaignValidator, format_validation_errors
  oauth_manager.py -> Credential, OAuthState, TikTokOAuthManager namespace
  api_client.py    -> interpret_music_error, interpret_submission_error
  agent.py         -> handle_music_validation, handle_submission

Python dicts holding a fixed key set become Lean structures; `None` and
missing keys become `Option.none`; Python truthiness of an optional string
(`not x` is true for both None and "") is the `truthy` test below; code
that can raise becomes `Except`-valued; the pair returned by the stateful
OAuth operations carries the manager state (in-memory credentials plus the
persisted credentials file) explicitly.
-/

/-- Python truthiness of an `Optional[str]`: `None` and `""` are falsy. -/
def truthy : Option String → Bool
  | none => false
  | some s => !(s == "")

/-- Python `str.strip()`: leading and trailing whitespace removed. -/
def pyStrip (s : String) : String :=
  String.mk
    (((s.data.dropWhile Char.isWhitespace).reverse.dropWhile
        Char.isWhitespace).reverse)

/-- Python `str.lower()` (the messages matched on here are ASCII). -/
def pyLower (s : String) : String :=
  String.mk (s.data.map Char.toLower)

def listIsPrefixOfChar : List Char → List Char → Bool
  | [], _ => true
  | _ :: _, [] => false
  | a :: as, b :: bs => a == b && listIsPrefixOfChar as bs

def listIsInfixOfChar (pat l : List Char) : Bool :=
  match l with
  | [] => pat.isEmpty
  | _ :: rest => listIsPrefixOfChar pat l || listIsInfixOfChar pat rest

/-- Python `pat in s`: `pat` occurs as a contiguous substring of `s`. -/
def containsSub (s pat : String) : Bool :=
  listIsInfixOfChar pat.data s.data

/-! ## config.py — BusinessRules -/

namespace BusinessRules

def CAMPAIGN_NAME_MIN_LENGTH : Nat := 3

def AD_TEXT_MAX_LENGTH : Nat := 100

def VALID_OBJECTIVES : List String := ["Traffic", "Conversions"]

def VALID_CTAS : List String :=
  ["LEARN_MORE", "SHOP_NOW", "SIGN_UP", "DOWNLOAD", "BOOK_NOW",
   "CONTACT_US", "GET_QUOTE", "APPLY_NOW", "WATCH_MORE"]

def MUSIC_REQUIRED_FOR : List String := ["Conversions"]

def MUSIC_OPTIONAL_FOR : List String := ["Traffic"]

def requires_music (objective : String) : Bool :=
  MUSIC_REQUIRED_FOR.contains objective

def allows_no_music (objective : String) : Bool :=
  MUSIC_OPTIONAL_FOR.contains objective

end BusinessRules

/-! ## validators.py -/

/-- `ValidationError` value from validators.py (field, message, suggestion). -/
structure ValidationError where
  field : String
  message : String
  suggestion : String
deriving Repr, DecidableEq

/-- `ValidationError.__str__`. -/
def ValidationError.str (e : ValidationError) : String :=
  e.field ++ ": " ++ e.message ++
    (if e.suggestion != "" then " (" ++ e.suggestion ++ ")" else "")

/-- The `campaign_data` dict held by the agent (agent.py always populates
all six keys, so a structure with `Option` fields models it). -/
structure CampaignData where
  campaign_name : Option String
  objective : Option String
  ad_text : Option String
  cta : Option String
  music_id : Option String
  music_status : String
deriving Repr, DecidableEq

namespace CampaignValidator

def validate_campaign_name (name : Option String) : Option ValidationError :=
  match name with
  | none => some ⟨"campaign_name", "Campaign name is required",
      "Please provide a name for your campaign"⟩
  | some n =>
    if n = "" then
      some ⟨"campaign_name", "Campaign name is required",
        "Please provide a name for your campaign"⟩
    else if (pyStrip n).length < BusinessRules.CAMPAIGN_NAME_MIN_LENGTH then
      some ⟨"campaign_name",
        "Campaign name must be at least " ++
          toString BusinessRules.CAMPAIGN_NAME_MIN_LENGTH ++ " characters",
        "Current length: " ++ toString (pyStrip n).length ++ " characters"⟩
    else none

def validate_objective (objective : Option String) : Option ValidationError :=
  match objective with
  | none => some ⟨"objective", "Campaign objective is required",
      "Choose either: " ++ String.intercalate ", " BusinessRules.VALID_OBJECTIVES⟩
  | some o =>
    if o = "" then
      some ⟨"objective", "Campaign objective is required",
        "Choose either: " ++ String.intercalate ", " BusinessRules.VALID_OBJECTIVES⟩
    else if !(BusinessRules.VALID_OBJECTIVES.contains o) then
      some ⟨"objective", "Invalid objective: " ++ o,
        "Must be one of: " ++ String.intercalate ", " BusinessRules.VALID_OBJECTIVES⟩
    else none

def validate_ad_text (text : Option String) : Option ValidationError :=
  match text with
  | none => some ⟨"ad_text", "Ad text is required",
      "Please provide text for your ad"⟩
  | some t =>
    if t = "" then
      some ⟨"ad_text", "Ad text is required", "Please provide text for your ad"⟩
    else if t.length > BusinessRules.AD_TEXT_MAX_LENGTH then
      some ⟨"ad_text",
        "Ad text exceeds maximum length of " ++
          toString BusinessRules.AD_TEXT_MAX_LENGTH ++ " characters",
        "Current length: " ++ toString t.length ++
          " characters. Please shorten by " ++
          toString (t.length - BusinessRules.AD_TEXT_MAX_LENGTH) ++ " characters."⟩
    else none

def validate_cta (cta : Option String) : Option ValidationError :=
  match cta with
  | none => some ⟨"cta", "CTA (Call to Action) is required",
      "Choose one of: " ++ String.intercalate ", " BusinessRules.VALID_CTAS⟩
  | some c =>
    if c = "" then
      some ⟨"cta", "CTA (Call to Action) is required",
        "Choose one of: " ++ String.intercalate ", " BusinessRules.VALID_CTAS⟩
    else if !(BusinessRules.VALID_CTAS.contains c) then
      some ⟨"cta", "Invalid CTA: " ++ c,
        "Must be one of: " ++ String.intercalate ", " BusinessRules.VALID_CTAS⟩
    else none

def validate_music_logic (objective music_id : Option String) :
    Option ValidationError :=
  match objective with
  | none => none
  | some o =>
    if o = "" then none
    else if BusinessRules.requires_music o && !(truthy music_id) then
      some ⟨"music_id", o ++ " campaigns require music",
        "Please provide a Music ID or upload custom music. Alternatively, change objective to Traffic."⟩
    else none

def validate_all (cd : CampaignData) : List ValidationError :=
  (validate_campaign_name cd.campaign_name).toList ++
  (validate_objective cd.objective).toList ++
  (validate_ad_text cd.ad_text).toList ++
  (validate_cta cd.cta).toList ++
  (validate_music_logic cd.objective cd.music_id).toList

def is_complete (cd : CampaignData) : Bool :=
  if !(truthy cd.campaign_name) then false
  else if !(truthy cd.objective) then false
  else if !(truthy cd.ad_text) then false
  else if !(truthy cd.cta) then false
  else if BusinessRules.requires_music (cd.objective.getD "") &&
      !(truthy cd.music_id) then false
  else true

end CampaignValidator

/-- `format_validation_errors` (validators.py). The source joins with the
two-character sequence backslash-n, written `"\\n"` in the Python file. -/
def format_validation_errors (errors : List ValidationError) : String :=
  if errors.isEmpty then ""
  else
    String.intercalate "\\n"
      ("Validation Errors:" :: errors.map (fun e => "  • " ++ e.str))

/-! ## oauth_manager.py — TikTokOAuthManager -/

/-- The `OAuthError` exception (error_type, message, suggestion). -/
structure OAuthErrorE where
  error_type : String
  message : String
  suggestion : String
deriving Repr, DecidableEq

/-- The credentials dict built by exchange/refresh (oauth_manager.py).
Timestamps (ISO strings in the source) are modelled as `Nat` seconds;
keys read with `.get` that may be missing are `Option`-valued. -/
structure Credential where
  access_token : Option String
  refresh_token : Option String
  advertiser_ids : List String
  expires_at : Option Nat
  created_at : Option Nat
deriving Repr, DecidableEq

/-- Manager state: `self.credentials` (in memory) and the contents of the
credentials file on disk (`_save_credentials` copies the former to the
latter). -/
structure OAuthState where
  credentials : Option Credential
  stored : Option Credential
deriving Repr, DecidableEq

/-- `data` field of a token-endpoint response.  `access_token` is read with
`[...]` in the source (required); the other keys use `.get` with defaults. -/
structure TokenData where
  access_token : String
  refresh_token : Option String
  advertiser_ids : List String
  expires_in : Option Nat
deriving Repr, DecidableEq

/-- JSON body of a token-endpoint response (`code == 0` is success). -/
structure TokenResponse where
  code : Int
  message : String
  data : Option TokenData
deriving Repr, DecidableEq

/-- A token-endpoint network interaction: `Except.error msg` models a
`requests.RequestException` with text `msg`; `Except.ok` a parsed body. -/
abbrev TokenNet := Except String TokenResponse

namespace TikTokOAuthManager

/-- `_handle_token_error` (oauth_manager.py): always raises; here it
returns the `OAuthError` raised. -/
def handle_token_error (r : TokenResponse) : OAuthErrorE :=
  let msg := r.message
  if r.code = 40100 then
    if containsSub (pyLower msg) "client_id" || containsSub (pyLower msg) "app_id" then
      ⟨"INVALID_CLIENT_ID", "Your TikTok App ID is invalid",
        "Please check your TIKTOK_APP_ID in .env matches your app in TikTok Developer dashboard"⟩
    else if containsSub (pyLower msg) "secret" then
      ⟨"INVALID_CLIENT_SECRET", "Your TikTok App Secret is invalid",
        "Please check your TIKTOK_APP_SECRET in .env matches your app secret"⟩
    else
      ⟨"INVALID_CREDENTIALS", msg,
        "Verify your app credentials in TikTok Developer dashboard"⟩
  else if r.code = 40101 then
    ⟨"INVALID_CODE", "Authorization code is invalid or expired",
      "Please restart the OAuth flow"⟩
  else if r.code = 40104 then
    ⟨"INSUFFICIENT_PERMISSIONS", "Your app doesn't have required permissions",
      "Add these scopes in TikTok Developer dashboard: ad_management, ad_creation"⟩
  else
    ⟨"OAUTH_ERROR", msg,
      "Check TikTok Ads API documentation for error code: " ++ toString r.code⟩

/-- `exchange_code_for_token` (real-API path).  `net` is the POST to the
token URL; `now` the current time.  On any failure the exception
propagates before `self.credentials` is assigned, so the state component
of the result is the input state. -/
def exchange_code_for_token (st : OAuthState) (net : TokenNet) (now : Nat) :
    Except OAuthErrorE Credential × OAuthState :=
  match net with
  | .error em =>
    (.error ⟨"NETWORK_ERROR", "Failed to connect to TikTok API: " ++ em,
      "Check your internet connection and try again"⟩, st)
  | .ok r =>
    if r.code ≠ 0 then (.error (handle_token_error r), st)
    else
      match r.data with
      | none =>
        -- token_data["access_token"] on the empty default dict: KeyError
        (.error ⟨"KeyError", "access_token", ""⟩, st)
      | some td =>
        let expires_in := td.expires_in.getD 86400
        let cred : Credential :=
          { access_token := some td.access_token,
            refresh_token := td.refresh_token,
            advertiser_ids := td.advertiser_ids,
            expires_at := some (now + expires_in),
            created_at := some now }
        (.ok cred, { credentials := some cred, stored := some cred })

/-- `_refresh_token` (real-API path).  Returns the Bool result and the
state after the call; every failure path returns `False` before any
mutation (the whole body is wrapped in try/except returning `False`). -/
def refresh_token_step (st : OAuthState) (net : TokenNet) (now : Nat) :
    Bool × OAuthState :=
  match st.credentials with
  | none => (false, st)
  | some c =>
    if !(truthy c.refresh_token) then (false, st)
    else
      match net with
      | .error _ => (false, st)
      | .ok r =>
        if r.code ≠ 0 then (false, st)
        else
          match r.data with
          | none =>
            -- token_data["access_token"] raises, caught by `except`
            (false, st)
          | some td =>
            let expires_in := td.expires_in.getD 86400
            let c2 : Credential :=
              { c with
                access_token := some td.access_token,
                refresh_token := some (td.refresh_token.getD (c.refresh_token.getD "")),
                expires_at := some (now + expires_in) }
            (true, { credentials := some c2, stored := some c2 })

/-- `has_valid_token` (oauth_manager.py). -/
def has_valid_token_step (st : OAuthState) (net : TokenNet) (now : Nat) :
    Bool × OAuthState :=
  match st.credentials with
  | none => (false, st)
  | some c =>
    if !(truthy c.access_token) then (false, st)
    else
      match c.expires_at with
      | none => (false, st)
      | some t =>
        if t ≤ now then refresh_token_step st net now
        else (true, st)

/-- `get_access_token` (oauth_manager.py).  When `has_valid_token` is
true the credentials are present with a set access token, so the
`getD ""` defaults below are never taken. -/
def get_access_token_step (st : OAuthState) (net : TokenNet) (now : Nat) :
    Except OAuthErrorE String × OAuthState :=
  let r := has_valid_token_step st net now
  if !r.1 then
    (.error ⟨"NO_TOKEN", "No valid access token available",
      "Please run OAuth flow first"⟩, r.2)
  else
    match r.2.credentials with
    | some c => (.ok (c.access_token.getD ""), r.2)
    | none => (.ok "", r.2)

end TikTokOAuthManager

/-! ## api_client.py — error interpretation -/

/-- A JSON scalar standing where the platform puts the error `code`:
either a JSON number or a JSON string. -/
inductive JsonCode where
  | intCode (n : Int)
  | strCode (s : String)
deriving Repr, DecidableEq

/-- Python `==` between the `code` value and an int literal: strings never
equal ints. -/
def JsonCode.eqInt : JsonCode → Int → Bool
  | .intCode m, n => m == n
  | .strCode _, _ => false

/-- Python `str(code)`. -/
def JsonCode.pyStr : JsonCode → String
  | .intCode n => toString n
  | .strCode s => s

/-- Digits-only parse used by `pyInt`. -/
def parseDigits (cs : List Char) : Option Nat :=
  match cs with
  | [] => none
  | _ =>
    if cs.all Char.isDigit then
      some (cs.foldl (fun a c => a * 10 + (c.toNat - 48)) 0)
    else none

/-- Python `int(...)` on a string: optional sign then decimal digits after
trimming whitespace; anything else raises `ValueError` (`none` here). -/
def pyIntOfString (s : String) : Option Int :=
  match (pyStrip s).toList with
  | [] => none
  | c :: rest =>
    if c = '-' then (parseDigits rest).map (fun n => -(n : Int))
    else if c = '+' then (parseDigits rest).map (fun n => (n : Int))
    else (parseDigits (c :: rest)).map (fun n => (n : Int))

/-- Python `int(code)` where `code` is an int or a string. -/
def JsonCode.pyInt : JsonCode → Option Int
  | .intCode n => some n
  | .strCode s => pyIntOfString s

/-- Error-response body as consumed by the interpreters: `code` is absent
(`none`) when the dict has no "code" key — the source then defaults it to
the empty string. -/
structure ErrorResponse where
  code : Option JsonCode
  message : String
deriving Repr, DecidableEq

/-- Lookup table of `_interpret_music_error` (api_client.py). -/
def music_interpretations : List (String × String) :=
  [("40300", "This Music ID doesn't exist in TikTok's music library."),
   ("40301", "This music is not available in your target region due to licensing restrictions."),
   ("40302", "This music has copyright restrictions and cannot be used."),
   ("40303", "This music has been removed or is no longer available."),
   ("MUSIC_NOT_FOUND", "This Music ID doesn't exist in TikTok's music library."),
   ("MUSIC_GEO_RESTRICTED", "This music is not available in your region."),
   ("MUSIC_COPYRIGHT", "This music has copyright restrictions.")]

def music_suggestion : String :=
  "\n\nWhat would you like to do?\n1. Try a different Music ID\n2. Upload your own custom music\n3. Continue without music (only for Traffic campaigns)"

/-- `TikTokAPIClient._interpret_music_error`: dict lookup on `str(code)`
with fallback `message or "Unknown music validation error"`; total. -/
def interpret_music_error (resp : ErrorResponse) : String :=
  let code := resp.code.getD (.strCode "")
  let message := resp.message
  let base :=
    ((music_interpretations.find? (fun p => p.1 == code.pyStr)).map (fun p => p.2)).getD
      (if message != "" then message else "Unknown music validation error")
  base ++ music_suggestion

/-- `TikTokAPIClient._interpret_submission_error`.  `Except.error`
models an uncaught Python exception escaping the interpreter
(`int(code)` raising `ValueError`); `Except.ok none` models the branch
for code 40104 whose message matches none of the tested substrings,
which falls off the `elif` and returns Python `None`. -/
def interpret_submission_error (resp : ErrorResponse) :
    Except String (Option String) :=
  let code := resp.code.getD (.strCode "")
  let message := resp.message
  if code.eqInt 40100 then
    .ok (some "Your access token is invalid or expired. Let me help you re-authenticate.")
  else if code.eqInt 40104 then
    if containsSub (pyLower message) "permission" then
      .ok (some "Your app doesn't have permission for ad creation. Please add required scopes in TikTok Developer dashboard.")
    else if containsSub (pyLower message) "region" || containsSub (pyLower message) "geo" then
      .ok (some "Ad creation is not available in your region. You may need to use a VPN or regional account.")
    else
      .ok none
  else if code.eqInt 40300 then
    .ok (some ("Invalid music: " ++ message))
  else if code.eqInt 429 then
    .ok (some "TikTok is rate limiting requests. Let's wait a moment and try again.")
  else
    match code.pyInt with
    | none => .error "ValueError"
    | some n =>
      if n ≥ 500 then
        .ok (some "TikTok's API is experiencing issues. Would you like to retry or save as draft?")
      else
        .ok (some ("Submission failed: " ++ message))

/-! ## agent.py — next-action handlers -/

/-- Result of `api_client.validate_music` as consumed by the agent. -/
structure MusicValidationResult where
  valid : Bool
  error : Option String
deriving Repr, DecidableEq

/-- Result of `api_client.create_ad` as consumed by the agent. -/
structure CreateAdResult where
  success : Bool
  ad_id : Option String
deriving Repr, DecidableEq

/-- Outcome of `_handle_submission`: the returned text together with
whether the external `create_ad` collaborator was invoked. -/
structure SubmissionOutcome where
  response : String
  called_create_ad : Bool
deriving Repr, DecidableEq

/-- `TikTokAdsAgent._handle_submission`.  `api` is the outcome the
external `create_ad` call would produce; `llmInterp` the conversation
text the model produces from the error-interpretation prompt on failure. -/
def handle_submission (cd : CampaignData) (api : CreateAdResult)
    (llmInterp : String) : SubmissionOutcome :=
  let errors := CampaignValidator.validate_all cd
  if !errors.isEmpty then
    { response := "Cannot submit - please fix these issues:\n" ++
        format_validation_errors errors,
      called_create_ad := false }
  else if api.success then
    { response :=
        "🎉 Success! Your ad campaign has been created.\n\nAd ID: " ++
        (api.ad_id.getD "None") ++ "\nCampaign: " ++
        (cd.campaign_name.getD "None") ++ "\nObjective: " ++
        (cd.objective.getD "None") ++
        "\nStatus: Pending Review\n\nYour ad will be reviewed by TikTok and should go live within 24 hours.",
      called_create_ad := true }
  else
    { response := llmInterp, called_create_ad := true }

/-- `TikTokAdsAgent._handle_music_validation`.  `result` is the outcome
of the external `validate_music` call; `llmText` the conversation text
the model produces from the error context on failure.  Returns the reply
and the updated `campaign_data`. -/
def handle_music_validation (cd : CampaignData) (result : MusicValidationResult)
    (llmText : String) : String × CampaignData :=
  if !(truthy cd.music_id) then
    ("Please provide a Music ID to validate.", cd)
  else if result.valid then
    let cd2 := { cd with music_status := "validated" }
    let base := "Great! Music ID '" ++ (cd.music_id.getD "") ++
      "' is valid and ready to use. "
    let response :=
      if CampaignValidator.is_complete cd2 then
        base ++ "I have all the information needed. Ready to submit?"
      else base
    (response, cd2)
  else
    let cd2 := { cd with music_status := "error", music_id := none }
    (llmText, cd2)

/-! ## Helper lemmas -/

lemma requires_music_getD (o : Option String) :
    BusinessRules.requires_music (o.getD "") = (o == some "Conversions") := by
  cases o with
  | none => decide
  | some s =>
    simp only [Option.getD_some, BusinessRules.requires_music,
      BusinessRules.MUSIC_REQUIRED_FOR]
    cases h : (s == "Conversions") with
    | true => simp_all [List.contains]
    | false => simp_all [List.contains]

/-! ## Claims -/

/-- Claim C1: the music-eligibility check (`validate_music_logic`) yields
exactly one issue, on field `music_id`, when the objective is Conversions
and `music_id` is null or empty; yields no issue when the objective is
Traffic, whatever `music_id` is; and yields no issue when the objective
itself is null. -/
theorem c1_music_rule (music_id : Option String) :
    ((music_id = none ∨ music_id = some "") →
      CampaignValidator.validate_music_logic (some "Conversions") music_id =
        some ⟨"music_id", "Conversions campaigns require music",
          "Please provide a Music ID or upload custom music. Alternatively, change objective to Traffic."⟩) ∧
    CampaignValidator.validate_music_logic (some "Traffic") music_id = none ∧
    CampaignValidator.validate_music_logic none music_id = none := by
  refine ⟨?_, ?_, rfl⟩
  · rintro (rfl | rfl) <;> decide
  · unfold CampaignValidator.validate_music_logic
    have h : BusinessRules.requires_music "Traffic" = false := by decide
    simp [h]

/-- Claim C1 witness: the theorem applied at `music_id = none`. -/
theorem c1_music_rule_witness :
    CampaignValidator.validate_music_logic (some "Conversions") none =
      some ⟨"music_id", "Conversions campaigns require music",
        "Please provide a Music ID or upload custom music. Alternatively, change objective to Traffic."⟩ :=
  (c1_music_rule none).1 (Or.inl rfl)

/-- Claim C8: `validate_ad_text` accepts ad text of exactly 100 characters
and, for 101 characters, returns exactly one issue on field `ad_text`
whose suggestion cites an overage of exactly 1 character. -/
theorem c8_ad_text_bounds (t : String) :
    (t ≠ "" → t.length = 100 →
      CampaignValidator.validate_ad_text (some t) = none) ∧
    (t.length = 101 →
      CampaignValidator.validate_ad_text (some t) =
        some ⟨"ad_text", "Ad text exceeds maximum length of 100 characters",
          "Current length: 101 characters. Please shorten by 1 characters."⟩) := by
  constructor
  · intro hne hlen
    simp [CampaignValidator.validate_ad_text, hne, hlen,
      BusinessRules.AD_TEXT_MAX_LENGTH]
  · intro hlen
    have hne : t ≠ "" := by
      intro h
      rw [h] at hlen
      simp at hlen
    simp only [CampaignValidator.validate_ad_text, hne, hlen,
      BusinessRules.AD_TEXT_MAX_LENGTH, if_neg hne]
    decide

/-- Claim C8 witness: the theorem applied to concrete texts of length 100
and 101. -/
theorem c8_ad_text_bounds_witness :
    CampaignValidator.validate_ad_text
      (some (String.mk (List.replicate 100 'a'))) = none ∧
    CampaignValidator.validate_ad_text
      (some (String.mk (List.replicate 101 'a'))) =
        some ⟨"ad_text", "Ad text exceeds maximum length of 100 characters",
          "Current length: 101 characters. Please shorten by 1 characters."⟩ :=
  ⟨(c8_ad_text_bounds _).1 (by decide) (by decide),
   (c8_ad_text_bounds _).2 (by decide)⟩

/-- Claim C2 counterexample: a draft whose four scalar fields are all
non-null (ad_text is the empty string) and whose music rule passes
(objective Traffic), yet `is_complete` returns false — refuting the
claimed "non-null" characterization. -/
theorem c2_counterexample :
    (CampaignData.mk (some "Test") (some "Traffic") (some "") (some "SHOP_NOW")
        none "not_requested").campaign_name.isSome = true ∧
    (CampaignData.mk (some "Test") (some "Traffic") (some "") (some "SHOP_NOW")
        none "not_requested").objective.isSome = true ∧
    (CampaignData.mk (some "Test") (some "Traffic") (some "") (some "SHOP_NOW")
        none "not_requested").ad_text.isSome = true ∧
    (CampaignData.mk (some "Test") (some "Traffic") (some "") (some "SHOP_NOW")
        none "not_requested").cta.isSome = true ∧
    ((CampaignData.mk (some "Test") (some "Traffic") (some "") (some "SHOP_NOW")
        none "not_requested").objective == some "Conversions") = false ∧
    CampaignValidator.is_complete
      (CampaignData.mk (some "Test") (some "Traffic") (some "") (some "SHOP_NOW")
        none "not_requested") = false := by
  exact ⟨rfl, rfl, rfl, rfl, by decide, by decide⟩

/-- Claim C2 (amended): `is_complete` is true iff all four scalar fields
are non-null and non-empty (Python truthiness) and the music rule passes
(objective Conversions implies `music_id` present); `music_status` is
never consulted. -/
theorem c2_is_complete_characterization (cd : CampaignData) (s : String) :
    CampaignValidator.is_complete cd =
      (truthy cd.campaign_name && truthy cd.objective && truthy cd.ad_text &&
        truthy cd.cta &&
        (!(cd.objective == some "Conversions") || truthy cd.music_id)) ∧
    CampaignValidator.is_complete { cd with music_status := s } =
      CampaignValidator.is_complete cd := by
  constructor
  · unfold CampaignValidator.is_complete
    rw [requires_music_getD]
    cases h1 : truthy cd.campaign_name <;>
      cases h2 : truthy cd.objective <;>
      cases h3 : truthy cd.ad_text <;>
      cases h4 : truthy cd.cta <;>
      cases h5 : (cd.objective == some "Conversions") <;>
      cases h6 : truthy cd.music_id <;> simp
  · cases cd
    rfl

/-- Claim C2 witness: the amended characterization applied to the drafts
named in the claim (Traffic with no music is complete; Conversions with no
music is not; Conversions with music is complete again). -/
theorem c2_is_complete_characterization_witness :
    (CampaignValidator.is_complete
        (CampaignData.mk (some "Test") (some "Traffic") (some "Text")
          (some "SHOP_NOW") none "not_requested") =
      (truthy (some "Test") && truthy (some "Traffic") && truthy (some "Text") &&
        truthy (some "SHOP_NOW") &&
        (!((some "Traffic" : Option String) == some "Conversions") || truthy none)) ∧
      CampaignValidator.is_complete
        (CampaignData.mk (some "Test") (some "Traffic") (some "Text")
          (some "SHOP_NOW") none "validated") =
        CampaignValidator.is_complete
          (CampaignData.mk (some "Test") (some "Traffic") (some "Text")
            (some "SHOP_NOW") none "not_requested")) :=
  c2_is_complete_characterization
    (CampaignData.mk (some "Test") (some "Traffic") (some "Text")
      (some "SHOP_NOW") none "not_requested") "validated"

lemma validate_campaign_name_field (n : Option String) (e : ValidationError)
    (h : CampaignValidator.validate_campaign_name n = some e) :
    e.field = "campaign_name" := by
  cases n with
  | none => simp only [CampaignValidator.validate_campaign_name, Option.some.injEq] at h; subst h; rfl
  | some v =>
    simp only [CampaignValidator.validate_campaign_name] at h
    split_ifs at h <;> simp only [Option.some.injEq] at h <;> subst h <;> rfl

lemma validate_objective_field (o : Option String) (e : ValidationError)
    (h : CampaignValidator.validate_objective o = some e) :
    e.field = "objective" := by
  cases o with
  | none => simp only [CampaignValidator.validate_objective, Option.some.injEq] at h; subst h; rfl
  | some v =>
    simp only [CampaignValidator.validate_objective] at h
    split_ifs at h <;> simp only [Option.some.injEq] at h <;> subst h <;> rfl

lemma validate_ad_text_field (t : Option String) (e : ValidationError)
    (h : CampaignValidator.validate_ad_text t = some e) :
    e.field = "ad_text" := by
  cases t with
  | none => simp only [CampaignValidator.validate_ad_text, Option.some.injEq] at h; subst h; rfl
  | some v =>
    simp only [CampaignValidator.validate_ad_text] at h
    split_ifs at h <;> simp only [Option.some.injEq] at h <;> subst h <;> rfl

lemma validate_cta_field (c : Option String) (e : ValidationError)
    (h : CampaignValidator.validate_cta c = some e) :
    e.field = "cta" := by
  cases c with
  | none => simp only [CampaignValidator.validate_cta, Option.some.injEq] at h; subst h; rfl
  | some v =>
    simp only [CampaignValidator.validate_cta] at h
    split_ifs at h <;> simp only [Option.some.injEq] at h <;> subst h <;> rfl

lemma validate_music_logic_field (o m : Option String) (e : ValidationError)
    (h : CampaignValidator.validate_music_logic o m = some e) :
    e.field = "music_id" := by
  cases o with
  | none => simp [CampaignValidator.validate_music_logic] at h
  | some v =>
    simp only [CampaignValidator.validate_music_logic] at h
    split_ifs at h
    simp only [Option.some.injEq] at h
    subst h; rfl

lemma fields_sublist_single (v : Option ValidationError) (f : String)
    (h : ∀ e, v = some e → e.field = f) :
    List.Sublist (v.toList.map ValidationError.field) [f] := by
  cases v with
  | none => simp
  | some e =>
    simp only [Option.toList_some, List.map_cons, List.map_nil]
    rw [h e rfl]

/-- Claim C7: `validate_all` yields at most one issue per field, in the
fixed check order campaign_name, objective, ad_text, cta, music_id (the
issue fields always form a sublist of that list); the claim's
four-violation draft yields exactly one issue per violated field, in that
order. -/
theorem c7_validate_all_field_order (cd : CampaignData) :
    List.Sublist ((CampaignValidator.validate_all cd).map ValidationError.field)
      ["campaign_name", "objective", "ad_text", "cta", "music_id"] ∧
    (CampaignValidator.validate_all
        (CampaignData.mk (some "Ab") (some "Bogus")
          (some (String.mk (List.replicate 101 'a'))) (some "BAD") none
          "not_requested")).map ValidationError.field =
      ["campaign_name", "objective", "ad_text", "cta"] := by
  constructor
  · have h1 := fields_sublist_single _ _
      (validate_campaign_name_field cd.campaign_name)
    have h2 := fields_sublist_single _ _
      (validate_objective_field cd.objective)
    have h3 := fields_sublist_single _ _
      (validate_ad_text_field cd.ad_text)
    have h4 := fields_sublist_single _ _
      (validate_cta_field cd.cta)
    have h5 := fields_sublist_single _ _
      (validate_music_logic_field cd.objective cd.music_id)
    have := h1.append (h2.append (h3.append (h4.append h5)))
    simpa [CampaignValidator.validate_all] using this
  · decide

lemma validate_campaign_name_none_truthy (n : Option String)
    (h : CampaignValidator.validate_campaign_name n = none) : truthy n = true := by
  cases n with
  | none => simp [CampaignValidator.validate_campaign_name] at h
  | some v =>
    simp only [CampaignValidator.validate_campaign_name] at h
    split_ifs at h
    simp_all [truthy]

lemma validate_objective_none_truthy (o : Option String)
    (h : CampaignValidator.validate_objective o = none) : truthy o = true := by
  cases o with
  | none => simp [CampaignValidator.validate_objective] at h
  | some v =>
    simp only [CampaignValidator.validate_objective] at h
    split_ifs at h
    simp_all [truthy]

lemma validate_ad_text_none_truthy (t : Option String)
    (h : CampaignValidator.validate_ad_text t = none) : truthy t = true := by
  cases t with
  | none => simp [CampaignValidator.validate_ad_text] at h
  | some v =>
    simp only [CampaignValidator.validate_ad_text] at h
    split_ifs at h
    simp_all [truthy]

lemma validate_cta_none_truthy (c : Option String)
    (h : CampaignValidator.validate_cta c = none) : truthy c = true := by
  cases c with
  | none => simp [CampaignValidator.validate_cta] at h
  | some v =>
    simp only [CampaignValidator.validate_cta] at h
    split_ifs at h
    simp_all [truthy]

lemma validate_music_logic_none_cond (o : String) (m : Option String)
    (ho : o ≠ "")
    (h : CampaignValidator.validate_music_logic (some o) m = none) :
    (BusinessRules.requires_music o && !(truthy m)) = false := by
  simp only [CampaignValidator.validate_music_logic] at h
  rw [if_neg ho] at h
  cases hb : (BusinessRules.requires_music o && !(truthy m)) with
  | false => rfl
  | true => rw [hb] at h; simp at h

/-- Claim C9: if `validate_all` returns the empty list then `is_complete`
returns true — full validation implies completeness. -/
theorem c9_validate_all_empty_implies_complete (cd : CampaignData)
    (h : CampaignValidator.validate_all cd = []) :
    CampaignValidator.is_complete cd = true := by
  have hn : ∀ (o : Option ValidationError), o.toList = [] → o = none := by
    intro o ho
    cases o with
    | none => rfl
    | some e => simp at ho
  rw [CampaignValidator.validate_all] at h
  simp only [List.append_eq_nil] at h
  obtain ⟨⟨⟨⟨h1, h2⟩, h3⟩, h4⟩, h5⟩ := h
  have t1 := validate_campaign_name_none_truthy _ (hn _ h1)
  have t2 := validate_objective_none_truthy _ (hn _ h2)
  have t3 := validate_ad_text_none_truthy _ (hn _ h3)
  have t4 := validate_cta_none_truthy _ (hn _ h4)
  have h5n := hn _ h5
  clear h1 h2 h3 h4 h5
  cases hobj : cd.objective with
  | none => rw [hobj] at t2; simp [truthy] at t2
  | some o =>
    have ho : o ≠ "" := by
      rw [hobj] at t2
      simp [truthy] at t2
      intro he
      exact absurd (by rw [he]) t2
    rw [hobj] at h5n
    have hc := validate_music_logic_none_cond o cd.music_id ho h5n
    have hto : truthy (some o) = true := by simp [truthy, ho]
    simp [CampaignValidator.is_complete, t1, t3, t4, hobj, hc, hto]

/-- Claim C9 witness: the theorem applied to a concrete fully valid
draft. -/
theorem c9_validate_all_empty_implies_complete_witness :
    CampaignValidator.is_complete
      (CampaignData.mk (some "Summer Sale") (some "Traffic")
        (some "Check out our summer deals!") (some "SHOP_NOW") none
        "not_requested") = true :=
  c9_validate_all_empty_implies_complete
    (CampaignData.mk (some "Summer Sale") (some "Traffic")
      (some "Check out our summer deals!") (some "SHOP_NOW") none
      "not_requested") (by decide)

/-- Claim C5: on submit the Rule Engine runs first; a non-empty issue list
yields a formatted rejection and `create_ad` is never called; the platform
call happens exactly when the issue list is empty. -/
theorem c5_submission_gate (cd : CampaignData) (api : CreateAdResult)
    (llmInterp : String) :
    (CampaignValidator.validate_all cd ≠ [] →
      (handle_submission cd api llmInterp).called_create_ad = false ∧
      (handle_submission cd api llmInterp).response =
        "Cannot submit - please fix these issues:\n" ++
          format_validation_errors (CampaignValidator.validate_all cd)) ∧
    (CampaignValidator.validate_all cd = [] →
      (handle_submission cd api llmInterp).called_create_ad = true) := by
  constructor
  · intro h
    have hne : (CampaignValidator.validate_all cd).isEmpty = false := by
      cases he : CampaignValidator.validate_all cd with
      | nil => exact absurd he h
      | cons a l => rfl
    constructor <;> simp [handle_submission, hne]
  · intro h
    have he : (CampaignValidator.validate_all cd).isEmpty = true := by
      rw [h]; rfl
    cases ha : api.success <;> simp [handle_submission, he, ha]

/-- Claim C5 witness: the theorem applied to an empty draft (which fails
validation) and to a fully valid draft. -/
theorem c5_submission_gate_witness :
    ((handle_submission
        (CampaignData.mk none none none none none "not_requested")
        (CreateAdResult.mk true (some "ad_1")) "x").called_create_ad = false ∧
      (handle_submission
        (CampaignData.mk none none none none none "not_requested")
        (CreateAdResult.mk true (some "ad_1")) "x").response =
        "Cannot submit - please fix these issues:\n" ++
          format_validation_errors
            (CampaignValidator.validate_all
              (CampaignData.mk none none none none none "not_requested"))) ∧
    (handle_submission
        (CampaignData.mk (some "Summer Sale") (some "Traffic")
          (some "Check out our summer deals!") (some "SHOP_NOW") none
          "not_requested")
        (CreateAdResult.mk true (some "ad_1")) "x").called_create_ad = true :=
  ⟨(c5_submission_gate
      (CampaignData.mk none none none none none "not_requested")
      (CreateAdResult.mk true (some "ad_1")) "x").1 (by decide),
   (c5_submission_gate
      (CampaignData.mk (some "Summer Sale") (some "Traffic")
        (some "Check out our summer deals!") (some "SHOP_NOW") none
        "not_requested")
      (CreateAdResult.mk true (some "ad_1")) "x").2 (by decide)⟩

/-- Claim C10: with a music ID present, failed external music validation
sets `music_status` to "error" and resets `music_id` to null; successful
validation sets `music_status` to "validated" and keeps `music_id`; all
other draft fields are unchanged in both cases. -/
theorem c10_music_validation_state (cd : CampaignData)
    (result : MusicValidationResult) (llmText : String)
    (h : truthy cd.music_id = true) :
    (result.valid = true →
      (handle_music_validation cd result llmText).2 =
        { cd with music_status := "validated" }) ∧
    (result.valid = false →
      (handle_music_validation cd result llmText).2 =
        { cd with music_status := "error", music_id := none }) := by
  constructor <;> intro hv <;> simp [handle_music_validation, h, hv]

/-- Claim C10 witness: the theorem applied to a concrete draft with a
music ID, once for a successful validation and once for a failed one. -/
theorem c10_music_validation_state_witness :
    (handle_music_validation
        (CampaignData.mk (some "Test") (some "Conversions") (some "Text")
          (some "SHOP_NOW") (some "music_123") "pending_validation")
        (MusicValidationResult.mk true none) "t").2 =
      { CampaignData.mk (some "Test") (some "Conversions") (some "Text")
          (some "SHOP_NOW") (some "music_123") "pending_validation" with
        music_status := "validated" } ∧
    (handle_music_validation
        (CampaignData.mk (some "Test") (some "Conversions") (some "Text")
          (some "SHOP_NOW") (some "music_123") "pending_validation")
        (MusicValidationResult.mk false (some "bad")) "t").2 =
      { CampaignData.mk (some "Test") (some "Conversions") (some "Text")
          (some "SHOP_NOW") (some "music_123") "pending_validation" with
        music_status := "error", music_id := none } :=
  ⟨(c10_music_validation_state
      (CampaignData.mk (some "Test") (some "Conversions") (some "Text")
        (some "SHOP_NOW") (some "music_123") "pending_validation")
      (MusicValidationResult.mk true none) "t" (by decide)).1 rfl,
   (c10_music_validation_state
      (CampaignData.mk (some "Test") (some "Conversions") (some "Text")
        (some "SHOP_NOW") (some "music_123") "pending_validation")
      (MusicValidationResult.mk false (some "bad")) "t" (by decide)).2 rfl⟩

lemma refresh_token_step_cases (st : OAuthState) (net : TokenNet) (now : Nat) :
    TikTokOAuthManager.refresh_token_step st net now = (false, st) ∨
    ∃ c2, TikTokOAuthManager.refresh_token_step st net now =
      (true, OAuthState.mk (some c2) (some c2)) := by
  unfold TikTokOAuthManager.refresh_token_step
  split
  · exact Or.inl rfl
  · split
    · exact Or.inl rfl
    · split
      · exact Or.inl rfl
      · split
        · exact Or.inl rfl
        · split
          · exact Or.inl rfl
          · exact Or.inr ⟨_, rfl⟩

lemma refresh_token_step_fail_frame (st : OAuthState) (net : TokenNet)
    (now : Nat)
    (h : (TikTokOAuthManager.refresh_token_step st net now).1 = false) :
    (TikTokOAuthManager.refresh_token_step st net now).2 = st := by
  rcases refresh_token_step_cases st net now with hcase | ⟨c2, hcase⟩
  · rw [hcase]
  · rw [hcase] at h
    simp at h

/-- Claim C3: with a stored credential whose expiry is past, every
`get_access_token` call goes through a refresh attempt; if the refresh
fails the call fails with the NO_TOKEN error ("NoValidToken") and the
manager state — in-memory credentials and the persisted file alike — is
exactly the prior state; if the refresh succeeds the call returns a token
from the refreshed state. -/
theorem c3_expired_token_refresh (st : OAuthState) (c : Credential) (t : Nat)
    (net : TokenNet) (now : Nat)
    (hc : st.credentials = some c) (ha : truthy c.access_token = true)
    (he : c.expires_at = some t) (hexp : t ≤ now) :
    ((TikTokOAuthManager.refresh_token_step st net now).1 = false →
      TikTokOAuthManager.get_access_token_step st net now =
        (Except.error ⟨"NO_TOKEN", "No valid access token available",
          "Please run OAuth flow first"⟩, st)) ∧
    ((TikTokOAuthManager.refresh_token_step st net now).1 = true →
      (TikTokOAuthManager.get_access_token_step st net now).2 =
        (TikTokOAuthManager.refresh_token_step st net now).2 ∧
      ∃ s, (TikTokOAuthManager.get_access_token_step st net now).1 =
        Except.ok s) := by
  have hval : TikTokOAuthManager.has_valid_token_step st net now =
      TikTokOAuthManager.refresh_token_step st net now := by
    unfold TikTokOAuthManager.has_valid_token_step
    rw [hc]
    simp [ha, he, hexp]
  constructor
  · intro hf
    have hframe := refresh_token_step_fail_frame st net now hf
    unfold TikTokOAuthManager.get_access_token_step
    rw [hval]
    simp [hf, hframe]
  · intro ht
    unfold TikTokOAuthManager.get_access_token_step
    rw [hval]
    simp only [ht, Bool.not_true, Bool.false_eq_true, if_false]
    cases h2 : (TikTokOAuthManager.refresh_token_step st net now).2.credentials with
    | none => exact ⟨rfl, "", rfl⟩
    | some c2 => exact ⟨rfl, c2.access_token.getD "", rfl⟩

/-- Claim C3 witness: an expired credential with no usable refresh
response (network failure) — the call fails with NO_TOKEN and the state is
unchanged. -/
theorem c3_expired_token_refresh_witness :
    TikTokOAuthManager.get_access_token_step
      (OAuthState.mk
        (some (Credential.mk (some "tok") (some "ref") ["123"] (some 5) (some 0)))
        (some (Credential.mk (some "tok") (some "ref") ["123"] (some 5) (some 0))))
      (Except.error "connection refused") 10 =
      (Except.error ⟨"NO_TOKEN", "No valid access token available",
        "Please run OAuth flow first"⟩,
       OAuthState.mk
        (some (Credential.mk (some "tok") (some "ref") ["123"] (some 5) (some 0)))
        (some (Credential.mk (some "tok") (some "ref") ["123"] (some 5) (some 0)))) :=
  (c3_expired_token_refresh
    (OAuthState.mk
      (some (Credential.mk (some "tok") (some "ref") ["123"] (some 5) (some 0)))
      (some (Credential.mk (some "tok") (some "ref") ["123"] (some 5) (some 0))))
    (Credential.mk (some "tok") (some "ref") ["123"] (some 5) (some 0)) 5
    (Except.error "connection refused") 10 rfl (by decide) rfl
    (by decide)).1 (by decide)

lemma handle_token_error_categorized (r : TokenResponse) :
    (TikTokOAuthManager.handle_token_error r).error_type ∈
      ["INVALID_CLIENT_ID", "INVALID_CLIENT_SECRET", "INVALID_CREDENTIALS",
       "INVALID_CODE", "INSUFFICIENT_PERMISSIONS", "OAUTH_ERROR"] := by
  unfold TikTokOAuthManager.handle_token_error
  repeat' split
  all_goals
    first
    | (simp; done)
    | (by_cases hb : containsSub (pyLower r.message) "client_id" = true ∨
           containsSub (pyLower r.message) "app_id" = true
       · simp [hb]
       · by_cases hs : containsSub (pyLower r.message) "secret" = true
         · simp [hb, hs]
         · simp [hb, hs])

/-- Claim C4: a failed token exchange (error response from the platform,
or a transport failure) yields a categorized OAuthError and leaves the
manager state — in-memory credentials and the persisted file — exactly as
before. -/
theorem c4_exchange_failure_preserves_state (st : OAuthState) (net : TokenNet)
    (now : Nat) (h : ∀ r, net = Except.ok r → r.code ≠ 0) :
    (TikTokOAuthManager.exchange_code_for_token st net now).2 = st ∧
    ∃ e, (TikTokOAuthManager.exchange_code_for_token st net now).1 =
        Except.error e ∧
      e.error_type ∈
        ["NETWORK_ERROR", "INVALID_CLIENT_ID", "INVALID_CLIENT_SECRET",
         "INVALID_CREDENTIALS", "INVALID_CODE", "INSUFFICIENT_PERMISSIONS",
         "OAUTH_ERROR"] := by
  cases net with
  | error em =>
    exact ⟨rfl, ⟨"NETWORK_ERROR", "Failed to connect to TikTok API: " ++ em,
      "Check your internet connection and try again"⟩, rfl, by simp⟩
  | ok r =>
    have hr := h r rfl
    simp only [TikTokOAuthManager.exchange_code_for_token]
    rw [if_pos hr]
    refine ⟨rfl, TikTokOAuthManager.handle_token_error r, rfl, ?_⟩
    exact List.mem_cons_of_mem _ (handle_token_error_categorized r)

/-- Claim C4 witness: the theorem applied to a stored prior state and a
40100 invalid-client-id response. -/
theorem c4_exchange_failure_preserves_state_witness :
    (TikTokOAuthManager.exchange_code_for_token
        (OAuthState.mk
          (some (Credential.mk (some "old") (some "ref") ["1"] (some 99) (some 0)))
          (some (Credential.mk (some "old") (some "ref") ["1"] (some 99) (some 0))))
        (Except.ok (TokenResponse.mk 40100 "Invalid client_id" none)) 7).2 =
      OAuthState.mk
        (some (Credential.mk (some "old") (some "ref") ["1"] (some 99) (some 0)))
        (some (Credential.mk (some "old") (some "ref") ["1"] (some 99) (some 0))) ∧
    ∃ e, (TikTokOAuthManager.exchange_code_for_token
        (OAuthState.mk
          (some (Credential.mk (some "old") (some "ref") ["1"] (some 99) (some 0)))
          (some (Credential.mk (some "old") (some "ref") ["1"] (some 99) (some 0))))
        (Except.ok (TokenResponse.mk 40100 "Invalid client_id" none)) 7).1 =
        Except.error e ∧
      e.error_type ∈
        ["NETWORK_ERROR", "INVALID_CLIENT_ID", "INVALID_CLIENT_SECRET",
         "INVALID_CREDENTIALS", "INVALID_CODE", "INSUFFICIENT_PERMISSIONS",
         "OAUTH_ERROR"] :=
  c4_exchange_failure_preserves_state
    (OAuthState.mk
      (some (Credential.mk (some "old") (some "ref") ["1"] (some 99) (some 0)))
      (some (Credential.mk (some "old") (some "ref") ["1"] (some 99) (some 0))))
    (Except.ok (TokenResponse.mk 40100 "Invalid client_id" none)) 7
    (by intro r hr; cases hr; decide)

/-- Claim C6: the music-error interpreter does fall back to the raw
message on an unrecognized code, but the submission-error interpreter
evaluates `int(code)` on any code missing from its lookup chain, so a
non-numeric or absent code raises ValueError instead of falling back to
the raw message. -/
theorem c6_submission_interpreter_raises :
    interpret_submission_error ⟨none, "Something went wrong"⟩ =
      Except.error "ValueError" ∧
    interpret_submission_error
        ⟨some (JsonCode.strCode "UNEXPECTED_CODE"), "Something went wrong"⟩ =
      Except.error "ValueError" ∧
    interpret_music_error
        ⟨some (JsonCode.strCode "UNEXPECTED_CODE"), "raw platform message"⟩ =
      "raw platform message" ++ music_suggestion ∧
    interpret_submission_error ⟨some (JsonCode.intCode 404), "boom"⟩ =
      Except.ok (some ("Submission failed: " ++ "boom")) := by
  exact ⟨rfl, rfl, rfl, rfl⟩
